import Mathlib

/-!
Shallow embedding of the TON transfer service
(packages/core/src/service/transfer/tonService.ts) and of the wallet-version
settings filter (packages/uikit/src/pages/settings/Version.tsx) of the
MegapayerTon repository, together with theorems settling the specification
claims.

Network effects are made explicit: each exported operation returns its result
together with the ordered list of remote API calls it performed. The helpers
imported from the (absent) common.ts module are modelled from the spec and
marked as such in their doc comments; everything else is translated from the
TypeScript source.
-/

namespace MegapayerTon

/-- The wallet versions enumerated by MAX_ALLOWED_WALLET_MSGS in tonService.ts. -/
inductive WalletVersion
  | W5
  | V4R2
  | V4R1
  | V3R2
  | V3R1
deriving DecidableEq, Repr

/-- Remote account status as used by tonService.ts (the code only tests
for the string literal active). -/
inductive AccountStatus
  | active
  | uninit
  | frozen
  | nonexist
deriving DecidableEq, Repr

/-- A TON address string as the SDK classifies it: either not in friendly
format (raw), or in friendly format carrying a bounceable flag. Mirrors
Address.isFriendly and Address.parseFriendly(..).isBounceable. -/
inductive TonAddress
  | raw (s : String)
  | friendly (isBounceable : Bool) (s : String)
deriving DecidableEq, Repr

/-- The tonApiV2 Account model, restricted to the fields tonService.ts reads. -/
structure Account where
  address : TonAddress
  balance : Int
  status : AccountStatus
deriving DecidableEq, Repr

/-- AccountsMap = Map of string address to Account (tonService.ts). -/
abbrev AccountsMap := List (TonAddress × Account)

/-- Map.get on an AccountsMap. -/
def AccountsMap.get (accounts : AccountsMap) (address : TonAddress) : Option Account :=
  List.lookup address accounts

/-- seeIfAddressBounceable (tonService.ts):
Address.isFriendly(address) ? Address.parseFriendly(address).isBounceable : true.
The source comment notes that a raw address is bounceable by default. -/
def seeIfAddressBounceable : TonAddress → Bool
  | .raw _ => true
  | .friendly b _ => b

/-- seeIfBounceable (tonService.ts): bounceableAddress || activeContract, where
activeContract is toAccount && toAccount.status === active. An absent map entry
makes activeContract falsy. -/
def seeIfBounceable (accounts : AccountsMap) (address : TonAddress) : Bool :=
  let bounceableAddress := seeIfAddressBounceable address
  let activeContract :=
    match accounts.get address with
    | some toAccount => toAccount.status == AccountStatus.active
    | none => false
  bounceableAddress || activeContract

/-- A TonRecipient: either a DNS-style reference or a literal address; both
variants carry the address string tested by seeIfAddressBounceable. -/
structure TonRecipient where
  isDns : Bool
  address : TonAddress
deriving DecidableEq, Repr

/-- TonRecipientData, restricted to the fields createTonTransfer reads. -/
structure TonRecipientData where
  address : TonRecipient
  toAccount : Account
  comment : String
deriving DecidableEq, Repr

/-- seeIfTransferBounceable (tonService.ts): false for a DNS recipient, false
when the address is not syntactically bounceable, otherwise
account.status === active. -/
def seeIfTransferBounceable (account : Account) (recipient : TonRecipient) : Bool :=
  if recipient.isDns then false
  else if ! seeIfAddressBounceable recipient.address then false
  else account.status == AccountStatus.active

/-- SDK send-mode flag. -/
def SendMode.CARRY_ALL_REMAINING_BALANCE : Nat := 128

/-- SDK send-mode flag. -/
def SendMode.PAY_GAS_SEPARATELY : Nat := 1

/-- SDK send-mode flag. -/
def SendMode.IGNORE_ERRORS : Nat := 2

/-- A signing key: either the all-zero placeholder Buffer.alloc(64) or a key
derived from a mnemonic phrase. -/
inductive SecretKey
  | zeros
  | ofMnemonic (mnemonic : List String)
deriving DecidableEq, Repr

/-- mnemonicToPrivateKey, kept abstract: the derived key is identified by the
mnemonic it came from. -/
def mnemonicToPrivateKey (mnemonic : List String) : SecretKey :=
  SecretKey.ofMnemonic mnemonic

/-- The code/data pair loaded from a base64 state-init cell; kept abstract as
the originating string. -/
structure StateInit where
  base64 : String
deriving DecidableEq, Repr

/-- toStateInit (tonService.ts): undefined for an absent or falsy (empty)
string, otherwise the loaded state init. -/
def toStateInit (stateInit : Option String) : Option StateInit :=
  match stateInit with
  | none => none
  | some s => if s = "" then none else some ⟨s⟩

/-- One internal message handed to contract.createTransfer. -/
structure InternalMessage where
  «to» : TonAddress
  bounce : Bool
  value : Int
  body : Option String
  init : Option StateInit
deriving DecidableEq, Repr

/-- WalletState, flattened to the fields tonService.ts reads
(active.rawAddress and active.version). -/
structure WalletState where
  rawAddress : String
  version : WalletVersion
deriving DecidableEq, Repr

/-- The transfer cell produced by contract.createTransfer. -/
structure TransferCell where
  seqno : Nat
  secretKey : SecretKey
  timeout : Nat
  sendMode : Nat
  messages : List InternalMessage
deriving DecidableEq, Repr

/-- The external-message BOC produced by externalMessage(contract, seqno,
transfer).toBoc(); idx records the toBoc option used. -/
structure ExtBoc where
  walletState : WalletState
  seqno : Nat
  transfer : TransferCell
  idx : Bool
deriving DecidableEq, Repr

/-- The base64 rendering of a BOC (toString base64), kept abstract as a
wrapper: the SDK encoding is injective. -/
structure EncodedBoc where
  boc : ExtBoc
deriving DecidableEq, Repr

/-- toString base64 on a BOC. -/
def ExtBoc.toBase64 (b : ExtBoc) : EncodedBoc := ⟨b⟩

/-- TransferEstimationEvent, restricted to the extra field that
sendTonTransfer reads from fee.event.extra. -/
structure TransferEstimationEvent where
  extra : Int
deriving DecidableEq, Repr

/-- One message of a TonConnectTransactionPayload. -/
structure TonConnectMessage where
  address : TonAddress
  amount : Int
  payload : Option String
  stateInit : Option String
deriving DecidableEq, Repr

/-- TonConnectTransactionPayload, restricted to its message list. -/
structure TonConnectTransactionPayload where
  messages : List TonConnectMessage
deriving DecidableEq, Repr

/-- TransferMessage (tonService.ts): input of the multi-transfer operations. -/
structure TransferMessage where
  «to» : TonAddress
  bounce : Bool
  weiAmount : Int
  comment : Option String
deriving DecidableEq, Repr

/-- The failure conditions of the validation gates (error taxonomy of the
transfer service). -/
inductive TransferError
  | dateAndTime
  | notEnoughBalance
  | tooManyMessages
deriving DecidableEq, Repr

/-- ConnectTransferError kinds returned by tonConnectTransferError; undef
models kind: undefined. -/
inductive ConnectTransferErrorKind
  | dateAndTime
  | notEnoughBalance
  | undef
deriving DecidableEq, Repr

/-- One remote API call, in the order the operations perform them.
getServiceTime is the clock-sync probe; getBalance is getWalletBalance
(account plus seqno fetch); getSeqno is getWalletSeqNo; getAccount is
AccountsApi.getAccount; emulate and sendMessage carry the base64 envelope. -/
inductive ApiCall
  | getServiceTime
  | getBalance
  | getSeqno
  | getAccount (accountId : String)
  | emulate (accountId : TonAddress) (boc : EncodedBoc)
  | sendMessage (boc : EncodedBoc)
deriving DecidableEq, Repr

/-- The remote world an operation runs against: whether the service clock is
in sync, the wallet account and seqno that a fetch would return, the TTL the
clock yields, and the event the emulation endpoint would answer. -/
structure Env where
  timeSynced : Bool
  wallet : Account
  seqno : Nat
  ttl : Nat
  emulation : TransferEstimationEvent
deriving DecidableEq, Repr

/-- MAX_ALLOWED_WALLET_MSGS (tonService.ts). -/
def MAX_ALLOWED_WALLET_MSGS : WalletVersion → Nat
  | .W5 => 255
  | .V4R2 => 4
  | .V4R1 => 4
  | .V3R2 => 4
  | .V3R1 => 4

/-- Modelled from the spec: checkWalletPositiveBalanceOrDie (common.ts, not in
src). The spec requires for non-max transfers that the wallet balance be
positive; returns true when the gate passes. -/
def checkWalletPositiveBalance (wallet : Account) : Bool :=
  decide (0 < wallet.balance)

/-- Modelled from the spec: checkWalletBalanceOrDie (common.ts, not in src).
The spec: fail with not-enough-balance when total >= balance; returns true
when the gate passes. -/
def checkWalletBalance (total : Int) (wallet : Account) : Bool :=
  decide (total < wallet.balance)

/-- Modelled from the spec: checkMaxAllowedMessagesInMultiTransferOrDie
(common.ts, not in src). The spec: a batch whose message count exceeds the
per-version ceiling fails with the message-count condition; returns true when
the gate passes. -/
def checkMaxAllowedMessagesInMultiTransfer (messagesNumber : Nat)
    (walletVersion : WalletVersion) : Bool :=
  decide (messagesNumber ≤ MAX_ALLOWED_WALLET_MSGS walletVersion)

/-- createTonTransfer (tonService.ts): one internal message, send mode
CARRY_ALL_REMAINING_BALANCE + IGNORE_ERRORS when isMax else
PAY_GAS_SEPARATELY + IGNORE_ERRORS, bounce from seeIfTransferBounceable,
body the comment when non-empty. -/
def createTonTransfer (ttl : Nat) (seqno : Nat) (walletState : WalletState)
    (recipient : TonRecipientData) (weiAmount : Int) (isMax : Bool)
    (secretKey : SecretKey := SecretKey.zeros) : ExtBoc :=
  { walletState := walletState
    seqno := seqno
    transfer :=
      { seqno := seqno
        secretKey := secretKey
        timeout := ttl
        sendMode :=
          if isMax then
            SendMode.CARRY_ALL_REMAINING_BALANCE + SendMode.IGNORE_ERRORS
          else
            SendMode.PAY_GAS_SEPARATELY + SendMode.IGNORE_ERRORS
        messages :=
          [{ «to» := recipient.toAccount.address
             bounce := seeIfTransferBounceable recipient.toAccount recipient.address
             value := weiAmount
             body := if recipient.comment ≠ "" then some recipient.comment else none
             init := none }] }
    idx := true }

/-- createTonConnectTransfer (tonService.ts): one internal message per payload
message, send mode PAY_GAS_SEPARATELY + IGNORE_ERRORS, bounce from
seeIfBounceable, init from toStateInit, body the payload cell when the payload
string is truthy; serialized with toBoc(idx: false). -/
def createTonConnectTransfer (ttl : Nat) (seqno : Nat) (walletState : WalletState)
    (accounts : AccountsMap) (params : TonConnectTransactionPayload)
    (secretKey : SecretKey := SecretKey.zeros) : ExtBoc :=
  { walletState := walletState
    seqno := seqno
    transfer :=
      { seqno := seqno
        secretKey := secretKey
        timeout := ttl
        sendMode := SendMode.PAY_GAS_SEPARATELY + SendMode.IGNORE_ERRORS
        messages := params.messages.map fun item =>
          { «to» := item.address
            bounce := seeIfBounceable accounts item.address
            value := item.amount
            init := toStateInit item.stateInit
            body :=
              match item.payload with
              | some p => if p = "" then none else some p
              | none => none } }
    idx := false }

/-- createTonMultiTransfer (tonService.ts): one internal message per
TransferMessage, send mode PAY_GAS_SEPARATELY + IGNORE_ERRORS, bounce taken
verbatim from the input, body the comment unless it is the empty string. -/
def createTonMultiTransfer (ttl : Nat) (seqno : Nat) (walletState : WalletState)
    (transferMessages : List TransferMessage)
    (secretKey : SecretKey := SecretKey.zeros) : ExtBoc :=
  { walletState := walletState
    seqno := seqno
    transfer :=
      { seqno := seqno
        secretKey := secretKey
        timeout := ttl
        sendMode := SendMode.PAY_GAS_SEPARATELY + SendMode.IGNORE_ERRORS
        messages := transferMessages.map fun msg =>
          { «to» := msg.«to»
            bounce := msg.bounce
            value := msg.weiAmount
            body :=
              match msg.comment with
              | some c => if c = "" then none else some c
              | none => none
            init := none } }
    idx := true }

/-- estimateTonTransfer (tonService.ts): checkServiceTimeOrDie, then
getWalletBalance, then (unless isMax) checkWalletPositiveBalanceOrDie, then
createTonTransfer with the placeholder key, then emulation. The second
component is the ordered list of remote calls performed. -/
def estimateTonTransfer (env : Env) (walletState : WalletState)
    (recipient : TonRecipientData) (weiAmount : Int) (isMax : Bool) :
    Except TransferError TransferEstimationEvent × List ApiCall :=
  if ! env.timeSynced then
    (Except.error TransferError.dateAndTime, [ApiCall.getServiceTime])
  else if ! isMax && ! checkWalletPositiveBalance env.wallet then
    (Except.error TransferError.notEnoughBalance,
      [ApiCall.getServiceTime, ApiCall.getBalance])
  else
    let cell := createTonTransfer env.ttl env.seqno walletState recipient weiAmount isMax
    (Except.ok env.emulation,
      [ApiCall.getServiceTime, ApiCall.getBalance,
        ApiCall.emulate env.wallet.address cell.toBase64])

/-- tonConnectTransferError (tonService.ts): seeIfServiceTimeSync, then an
account fetch, then kind not-enough-balance when the summed message amounts
reach or exceed the balance, else kind undefined. -/
def tonConnectTransferError (env : Env) (walletState : WalletState)
    (params : TonConnectTransactionPayload) :
    ConnectTransferErrorKind × List ApiCall :=
  if ! env.timeSynced then
    (ConnectTransferErrorKind.dateAndTime, [ApiCall.getServiceTime])
  else
    let total := params.messages.foldl (fun acc message => acc + message.amount) 0
    if env.wallet.balance ≤ total then
      (ConnectTransferErrorKind.notEnoughBalance,
        [ApiCall.getServiceTime, ApiCall.getAccount walletState.rawAddress])
    else
      (ConnectTransferErrorKind.undef,
        [ApiCall.getServiceTime, ApiCall.getAccount walletState.rawAddress])

/-- estimateTonConnectTransfer (tonService.ts): checkServiceTimeOrDie,
getWalletBalance, checkWalletPositiveBalanceOrDie (unconditionally), then
construction with the placeholder key and emulation. -/
def estimateTonConnectTransfer (env : Env) (walletState : WalletState)
    (accounts : AccountsMap) (params : TonConnectTransactionPayload) :
    Except TransferError TransferEstimationEvent × List ApiCall :=
  if ! env.timeSynced then
    (Except.error TransferError.dateAndTime, [ApiCall.getServiceTime])
  else if ! checkWalletPositiveBalance env.wallet then
    (Except.error TransferError.notEnoughBalance,
      [ApiCall.getServiceTime, ApiCall.getBalance])
  else
    let cell := createTonConnectTransfer env.ttl env.seqno walletState accounts params
    (Except.ok env.emulation,
      [ApiCall.getServiceTime, ApiCall.getBalance,
        ApiCall.emulate env.wallet.address cell.toBase64])

/-- sendTonConnectTransfer (tonService.ts): checkServiceTimeOrDie, key
derivation, getWalletSeqNo, construction with the real key, broadcast, and
the base64 envelope returned to the caller. -/
def sendTonConnectTransfer (env : Env) (walletState : WalletState)
    (accounts : AccountsMap) (params : TonConnectTransactionPayload)
    (mnemonic : List String) :
    Except TransferError EncodedBoc × List ApiCall :=
  if ! env.timeSynced then
    (Except.error TransferError.dateAndTime, [ApiCall.getServiceTime])
  else
    let keyPair := mnemonicToPrivateKey mnemonic
    let boc := (createTonConnectTransfer env.ttl env.seqno walletState accounts params
      keyPair).toBase64
    (Except.ok boc,
      [ApiCall.getServiceTime, ApiCall.getSeqno, ApiCall.sendMessage boc])

/-- sendTonTransfer (tonService.ts): checkServiceTimeOrDie, key derivation,
total := fee.event.extra * (-1) + amount.weiAmount, getWalletBalance, then
(unless isMax) checkWalletBalanceOrDie(total, wallet), then construction with
the real key and broadcast; the function returns no value. -/
def sendTonTransfer (env : Env) (walletState : WalletState)
    (recipient : TonRecipientData) (amountWei : Int) (isMax : Bool)
    (fee : TransferEstimationEvent) (mnemonic : List String) :
    Except TransferError Unit × List ApiCall :=
  if ! env.timeSynced then
    (Except.error TransferError.dateAndTime, [ApiCall.getServiceTime])
  else
    let keyPair := mnemonicToPrivateKey mnemonic
    let total := fee.extra * (-1) + amountWei
    if ! isMax && ! checkWalletBalance total env.wallet then
      (Except.error TransferError.notEnoughBalance,
        [ApiCall.getServiceTime, ApiCall.getBalance])
    else
      let cell := createTonTransfer env.ttl env.seqno walletState recipient amountWei
        isMax keyPair
      (Except.ok (),
        [ApiCall.getServiceTime, ApiCall.getBalance, ApiCall.sendMessage cell.toBase64])

/-- estimateTonMultiTransfer (tonService.ts): checkServiceTimeOrDie, total of
the message amounts, getWalletBalance, checkWalletBalanceOrDie(total),
checkMaxAllowedMessagesInMultiTransferOrDie, then construction with the
placeholder key and emulation. -/
def estimateTonMultiTransfer (env : Env) (walletState : WalletState)
    (transferMessages : List TransferMessage) :
    Except TransferError TransferEstimationEvent × List ApiCall :=
  if ! env.timeSynced then
    (Except.error TransferError.dateAndTime, [ApiCall.getServiceTime])
  else
    let total := transferMessages.foldl (fun acc msg => acc + msg.weiAmount) 0
    if ! checkWalletBalance total env.wallet then
      (Except.error TransferError.notEnoughBalance,
        [ApiCall.getServiceTime, ApiCall.getBalance])
    else if ! checkMaxAllowedMessagesInMultiTransfer transferMessages.length
        walletState.version then
      (Except.error TransferError.tooManyMessages,
        [ApiCall.getServiceTime, ApiCall.getBalance])
    else
      let cell := createTonMultiTransfer env.ttl env.seqno walletState transferMessages
      (Except.ok env.emulation,
        [ApiCall.getServiceTime, ApiCall.getBalance,
          ApiCall.emulate env.wallet.address cell.toBase64])

/-- sendTonMultiTransfer (tonService.ts): checkServiceTimeOrDie, key
derivation, total of the message amounts, getWalletBalance,
checkWalletBalanceOrDie(total + feeEstimate),
checkMaxAllowedMessagesInMultiTransferOrDie, construction with the real key,
broadcast, and the literal true returned. -/
def sendTonMultiTransfer (env : Env) (walletState : WalletState)
    (transferMessages : List TransferMessage) (feeEstimate : Int)
    (mnemonic : List String) :
    Except TransferError Bool × List ApiCall :=
  if ! env.timeSynced then
    (Except.error TransferError.dateAndTime, [ApiCall.getServiceTime])
  else
    let keyPair := mnemonicToPrivateKey mnemonic
    let total := transferMessages.foldl (fun acc msg => acc + msg.weiAmount) 0
    if ! checkWalletBalance (total + feeEstimate) env.wallet then
      (Except.error TransferError.notEnoughBalance,
        [ApiCall.getServiceTime, ApiCall.getBalance])
    else if ! checkMaxAllowedMessagesInMultiTransfer transferMessages.length
        walletState.version then
      (Except.error TransferError.tooManyMessages,
        [ApiCall.getServiceTime, ApiCall.getBalance])
    else
      let cell := createTonMultiTransfer env.ttl env.seqno walletState transferMessages
        keyPair
      (Except.ok true,
        [ApiCall.getServiceTime, ApiCall.getBalance, ApiCall.sendMessage cell.toBase64])

/-- One entry of the useStandardTonWalletVersions list, restricted to the
fields the Version.tsx filter reads. tonBalance is a number whose JS
truthiness the filter tests, so zero is falsy. -/
structure StandardTonWalletVersion where
  version : WalletVersion
  tonBalance : Int
  hasJettons : Bool
deriving DecidableEq, Repr

/-- One wallet already attached to the account
(selectedAccount.activeDerivationTonWallets entry). -/
structure AccountTonWallet where
  version : WalletVersion
  rawAddress : String
deriving DecidableEq, Repr

/-- walletsToShow (Version.tsx): keep an entry when its version is not
backward-compatibility-only, or a wallet of that version is attached to the
account, or tonBalance is truthy, or it has jettons. The
backwardCompatibilityOnlyWalletVersions list lives in entries/wallet (not in
src) and is passed as a parameter. -/
def walletsToShow (backwardCompatibilityOnlyWalletVersions : List WalletVersion)
    (currentAccountWalletsVersions : List AccountTonWallet)
    (wallets : List StandardTonWalletVersion) : List StandardTonWalletVersion :=
  wallets.filter fun w =>
    ! backwardCompatibilityOnlyWalletVersions.contains w.version
    || currentAccountWalletsVersions.any (fun item => item.version == w.version)
    || ! (w.tonBalance == 0)
    || w.hasJettons

/-- A concrete wallet account shared by the witness instantiations below. -/
def sampleWallet : Account :=
  { address := TonAddress.raw "0:77", balance := 10, status := AccountStatus.active }

/-- A concrete in-sync environment for witness instantiations. -/
def sampleEnvSync : Env :=
  { timeSynced := true, wallet := sampleWallet, seqno := 7, ttl := 60,
    emulation := { extra := -3 } }

/-- A concrete out-of-sync environment for witness instantiations. -/
def sampleEnvDesync : Env :=
  { timeSynced := false, wallet := sampleWallet, seqno := 7, ttl := 60,
    emulation := { extra := -3 } }

/-- A concrete wallet state for witness instantiations. -/
def sampleWalletState : WalletState :=
  { rawAddress := "0:77", version := WalletVersion.V4R2 }

/-- A concrete recipient for witness instantiations. -/
def sampleRecipient : TonRecipientData :=
  { address := { isDns := false, address := TonAddress.friendly true "EQAA" }
    toAccount :=
      { address := TonAddress.friendly true "EQAA", balance := 0,
        status := AccountStatus.uninit }
    comment := "" }

/-- A concrete TonConnect payload for witness instantiations. -/
def samplePayload : TonConnectTransactionPayload :=
  { messages :=
      [{ address := TonAddress.friendly true "EQAA", amount := 5, payload := none,
         stateInit := none }] }

/-- A concrete estimation event for witness instantiations. -/
def sampleFee : TransferEstimationEvent := { extra := -3 }

/-- A concrete multi-transfer message for witness instantiations. -/
def sampleTransferMessage : TransferMessage :=
  { «to» := TonAddress.friendly true "EQAA", bounce := true, weiAmount := 1,
    comment := none }

/-- C1 (counterexample): the claim predicts bounce = true for a single
transfer to a syntactically non-bounceable literal address whose destination
account is active; seeIfTransferBounceable returns false there, because its
second early return fires on every non-bounceable address before the account
status is consulted. -/
theorem C1_counterexample :
    seeIfTransferBounceable
      { address := TonAddress.raw "0:11"
        balance := 1000000000
        status := AccountStatus.active }
      { isDns := false, address := TonAddress.friendly false "UQAA" } ≠ true := by
  decide

/-- C1 (amended): for a single transfer the derived bounce flag is false for a
DNS-style recipient, false for every syntactically non-bounceable literal
address regardless of the destination account, and for a bounceable (or raw)
address it is true exactly when the destination account is active; and
createTonTransfer stamps exactly this flag on its single message. -/
theorem C1_transfer_bounce_flag (account : Account) (r : TonRecipient)
    (ttl seqno : Nat) (walletState : WalletState) (recipient : TonRecipientData)
    (weiAmount : Int) (isMax : Bool) (secretKey : SecretKey) :
    (seeIfTransferBounceable account r
      = (! r.isDns && seeIfAddressBounceable r.address
          && (account.status == AccountStatus.active)))
    ∧ (createTonTransfer ttl seqno walletState recipient weiAmount isMax
        secretKey).transfer.messages.map InternalMessage.bounce
      = [seeIfTransferBounceable recipient.toAccount recipient.address] := by
  constructor
  · unfold seeIfTransferBounceable
    cases hd : r.isDns <;> cases hb : seeIfAddressBounceable r.address <;>
      simp [hd, hb]
  · rfl

/-- C7: in batch/TonConnect construction the bounce flag of every message is
seeIfBounceable, which is false exactly when the address is syntactically
non-bounceable and the AccountsMap holds no active account under it. -/
theorem C7_tonconnect_bounce_flag (accounts : AccountsMap) (address : TonAddress)
    (ttl seqno : Nat) (walletState : WalletState)
    (params : TonConnectTransactionPayload) (secretKey : SecretKey) :
    (seeIfBounceable accounts address = false ↔
      (seeIfAddressBounceable address = false ∧
        ∀ a, accounts.get address = some a → a.status ≠ AccountStatus.active))
    ∧ (createTonConnectTransfer ttl seqno walletState accounts params
        secretKey).transfer.messages.map InternalMessage.bounce
      = params.messages.map (fun item => seeIfBounceable accounts item.address) := by
  constructor
  · unfold seeIfBounceable
    cases hb : seeIfAddressBounceable address <;>
      cases hg : accounts.get address <;>
        simp [hb, hg]
  · simp only [createTonConnectTransfer, List.map_map]
    rfl

/-- C9: the TonConnect estimation and submission paths never raise the
message-count-exceeded condition, whatever the payload size: the
MAX_ALLOWED_WALLET_MSGS ceiling is only checked on the multi-transfer path. -/
theorem C9_tonconnect_no_message_count_gate (env : Env) (walletState : WalletState)
    (accounts : AccountsMap) (params : TonConnectTransactionPayload)
    (mnemonic : List String) :
    (estimateTonConnectTransfer env walletState accounts params).1
        ≠ Except.error TransferError.tooManyMessages
    ∧ (sendTonConnectTransfer env walletState accounts params mnemonic).1
        ≠ Except.error TransferError.tooManyMessages := by
  constructor
  · unfold estimateTonConnectTransfer
    split
    · simp
    · split <;> simp
  · unfold sendTonConnectTransfer
    split <;> simp

/-- C10: an address string that is not in friendly format is treated as
bounceable by the syntactic test, hence by the batch derivation
unconditionally, and by the single-transfer derivation whenever the
destination account is active. -/
theorem C10_raw_address_bounceable (s : String) (accounts : AccountsMap)
    (account : Account) :
    seeIfAddressBounceable (TonAddress.raw s) = true
    ∧ seeIfBounceable accounts (TonAddress.raw s) = true
    ∧ seeIfTransferBounceable account { isDns := false, address := TonAddress.raw s }
        = (account.status == AccountStatus.active) := by
  refine ⟨rfl, ?_, rfl⟩
  unfold seeIfBounceable
  simp [seeIfAddressBounceable]

/-- C5: when the remote service clock is out of sync, every transfer
operation stops with the date-and-time condition having performed only the
clock-sync probe: no balance or seqno fetch, no emulation and no broadcast
appears in its call list, and no message is constructed (construction is pure
and only reached after the balance or seqno fetch). -/
theorem C5_time_desync_short_circuit (env : Env) (walletState : WalletState)
    (recipient : TonRecipientData) (weiAmount : Int) (isMax : Bool)
    (accounts : AccountsMap) (params : TonConnectTransactionPayload)
    (mnemonic : List String) (fee : TransferEstimationEvent)
    (transferMessages : List TransferMessage) (feeEstimate : Int)
    (hdesync : env.timeSynced = false) :
    estimateTonTransfer env walletState recipient weiAmount isMax
      = (Except.error TransferError.dateAndTime, [ApiCall.getServiceTime])
    ∧ estimateTonConnectTransfer env walletState accounts params
      = (Except.error TransferError.dateAndTime, [ApiCall.getServiceTime])
    ∧ sendTonConnectTransfer env walletState accounts params mnemonic
      = (Except.error TransferError.dateAndTime, [ApiCall.getServiceTime])
    ∧ sendTonTransfer env walletState recipient weiAmount isMax fee mnemonic
      = (Except.error TransferError.dateAndTime, [ApiCall.getServiceTime])
    ∧ estimateTonMultiTransfer env walletState transferMessages
      = (Except.error TransferError.dateAndTime, [ApiCall.getServiceTime])
    ∧ sendTonMultiTransfer env walletState transferMessages feeEstimate mnemonic
      = (Except.error TransferError.dateAndTime, [ApiCall.getServiceTime])
    ∧ tonConnectTransferError env walletState params
      = (ConnectTransferErrorKind.dateAndTime, [ApiCall.getServiceTime]) := by
  refine ⟨?_, ?_, ?_, ?_, ?_, ?_, ?_⟩ <;>
    simp [estimateTonTransfer, estimateTonConnectTransfer, sendTonConnectTransfer,
      sendTonTransfer, estimateTonMultiTransfer, sendTonMultiTransfer,
      tonConnectTransferError, hdesync]

/-- C5 witness: the short-circuit at a concrete out-of-sync environment. -/
theorem C5_time_desync_short_circuit_witness :
    sampleEnvDesync.timeSynced = false
    ∧ (estimateTonTransfer sampleEnvDesync sampleWalletState sampleRecipient 5 false
        = (Except.error TransferError.dateAndTime, [ApiCall.getServiceTime])
      ∧ estimateTonConnectTransfer sampleEnvDesync sampleWalletState [] samplePayload
        = (Except.error TransferError.dateAndTime, [ApiCall.getServiceTime])
      ∧ sendTonConnectTransfer sampleEnvDesync sampleWalletState [] samplePayload []
        = (Except.error TransferError.dateAndTime, [ApiCall.getServiceTime])
      ∧ sendTonTransfer sampleEnvDesync sampleWalletState sampleRecipient 5 false
          sampleFee []
        = (Except.error TransferError.dateAndTime, [ApiCall.getServiceTime])
      ∧ estimateTonMultiTransfer sampleEnvDesync sampleWalletState
          [sampleTransferMessage]
        = (Except.error TransferError.dateAndTime, [ApiCall.getServiceTime])
      ∧ sendTonMultiTransfer sampleEnvDesync sampleWalletState
          [sampleTransferMessage] 1 []
        = (Except.error TransferError.dateAndTime, [ApiCall.getServiceTime])
      ∧ tonConnectTransferError sampleEnvDesync sampleWalletState samplePayload
        = (ConnectTransferErrorKind.dateAndTime, [ApiCall.getServiceTime])) :=
  ⟨rfl,
    C5_time_desync_short_circuit sampleEnvDesync sampleWalletState sampleRecipient 5
      false [] samplePayload [] sampleFee [sampleTransferMessage] 1 rfl⟩

/-- C2: with the clock in sync, a non-max sendTonTransfer fails with
not-enough-balance exactly when the amount plus the previously estimated fee
(the negated extra) reaches or exceeds the freshly fetched balance, and
otherwise proceeds to construction and broadcast of the signed envelope. -/
theorem C2_send_balance_gate (env : Env) (walletState : WalletState)
    (recipient : TonRecipientData) (amountWei : Int)
    (fee : TransferEstimationEvent) (mnemonic : List String)
    (hsync : env.timeSynced = true) :
    ((sendTonTransfer env walletState recipient amountWei false fee mnemonic).1
        = Except.error TransferError.notEnoughBalance
      ↔ env.wallet.balance ≤ amountWei + (-fee.extra))
    ∧ (amountWei + (-fee.extra) < env.wallet.balance →
        sendTonTransfer env walletState recipient amountWei false fee mnemonic
          = (Except.ok (),
              [ApiCall.getServiceTime, ApiCall.getBalance,
                ApiCall.sendMessage
                  (createTonTransfer env.ttl env.seqno walletState recipient amountWei
                    false (mnemonicToPrivateKey mnemonic)).toBase64])) := by
  by_cases h : env.wallet.balance ≤ amountWei + (-fee.extra)
  · have hc : checkWalletBalance (-fee.extra + amountWei) env.wallet = false := by
      unfold checkWalletBalance
      simp only [decide_eq_false_iff_not]
      omega
    refine ⟨?_, ?_⟩
    · simp [sendTonTransfer, hsync, hc, h]
    · intro hlt
      omega
  · have hc : checkWalletBalance (-fee.extra + amountWei) env.wallet = true := by
      unfold checkWalletBalance
      simp only [decide_eq_true_eq]
      omega
    refine ⟨?_, ?_⟩
    · simp [sendTonTransfer, hsync, hc, h]
    · intro hlt
      simp [sendTonTransfer, hsync, hc]

/-- C2 witness: the gate at a concrete input on both sides of the bound
(amount 5 with fee 3 against balance 10 proceeds; the iff refutes the error
there). -/
theorem C2_send_balance_gate_witness :
    sampleEnvSync.timeSynced = true
    ∧ (((sendTonTransfer sampleEnvSync sampleWalletState sampleRecipient 5 false
          sampleFee []).1 = Except.error TransferError.notEnoughBalance
        ↔ sampleEnvSync.wallet.balance ≤ 5 + (-sampleFee.extra))
      ∧ ((5 : Int) + (-sampleFee.extra) < sampleEnvSync.wallet.balance →
          sendTonTransfer sampleEnvSync sampleWalletState sampleRecipient 5 false
            sampleFee []
          = (Except.ok (),
              [ApiCall.getServiceTime, ApiCall.getBalance,
                ApiCall.sendMessage
                  (createTonTransfer sampleEnvSync.ttl sampleEnvSync.seqno
                    sampleWalletState sampleRecipient 5 false
                    (mnemonicToPrivateKey [])).toBase64]))) :=
  ⟨rfl,
    C2_send_balance_gate sampleEnvSync sampleWalletState sampleRecipient 5 sampleFee
      [] rfl⟩

/-- C4: a max transfer is built with the CARRY_ALL_REMAINING_BALANCE +
IGNORE_ERRORS send mode and a non-max one with PAY_GAS_SEPARATELY +
IGNORE_ERRORS whatever the amount; with the clock in sync, a max estimation
succeeds for any balance and a max submission succeeds for any balance and
fee, while the non-max estimation fails on a non-positive balance and the
non-max submission fails when amount plus estimated fee reaches the
balance. -/
theorem C4_send_max_mode_and_checks (env : Env) (walletState : WalletState)
    (recipient : TonRecipientData) (weiAmount : Int) (fee : TransferEstimationEvent)
    (mnemonic : List String) (ttl seqno : Nat) (secretKey : SecretKey)
    (hsync : env.timeSynced = true) :
    (createTonTransfer ttl seqno walletState recipient weiAmount true
        secretKey).transfer.sendMode
      = SendMode.CARRY_ALL_REMAINING_BALANCE + SendMode.IGNORE_ERRORS
    ∧ (createTonTransfer ttl seqno walletState recipient weiAmount false
        secretKey).transfer.sendMode
      = SendMode.PAY_GAS_SEPARATELY + SendMode.IGNORE_ERRORS
    ∧ (estimateTonTransfer env walletState recipient weiAmount true).1
      = Except.ok env.emulation
    ∧ (env.wallet.balance ≤ 0 →
        (estimateTonTransfer env walletState recipient weiAmount false).1
          = Except.error TransferError.notEnoughBalance)
    ∧ (sendTonTransfer env walletState recipient weiAmount true fee mnemonic).1
      = Except.ok ()
    ∧ (env.wallet.balance ≤ weiAmount + (-fee.extra) →
        (sendTonTransfer env walletState recipient weiAmount false fee mnemonic).1
          = Except.error TransferError.notEnoughBalance) := by
  refine ⟨rfl, rfl, ?_, ?_, ?_, ?_⟩
  · simp [estimateTonTransfer, hsync]
  · intro h
    have hc : checkWalletPositiveBalance env.wallet = false := by
      unfold checkWalletPositiveBalance
      simp only [decide_eq_false_iff_not]
      omega
    simp [estimateTonTransfer, hsync, hc]
  · simp [sendTonTransfer, hsync]
  · intro h
    have hc : checkWalletBalance (-fee.extra + weiAmount) env.wallet = false := by
      unfold checkWalletBalance
      simp only [decide_eq_false_iff_not]
      omega
    simp [sendTonTransfer, hsync, hc]

/-- C4 witness: the modes and the skipped and applied checks at concrete
inputs (balance 10, amount 5, fee 3). -/
theorem C4_send_max_mode_and_checks_witness :
    sampleEnvSync.timeSynced = true
    ∧ ((createTonTransfer 60 7 sampleWalletState sampleRecipient 5 true
          SecretKey.zeros).transfer.sendMode
        = SendMode.CARRY_ALL_REMAINING_BALANCE + SendMode.IGNORE_ERRORS
      ∧ (createTonTransfer 60 7 sampleWalletState sampleRecipient 5 false
          SecretKey.zeros).transfer.sendMode
        = SendMode.PAY_GAS_SEPARATELY + SendMode.IGNORE_ERRORS
      ∧ (estimateTonTransfer sampleEnvSync sampleWalletState sampleRecipient 5
          true).1 = Except.ok sampleEnvSync.emulation
      ∧ (sampleEnvSync.wallet.balance ≤ 0 →
          (estimateTonTransfer sampleEnvSync sampleWalletState sampleRecipient 5
            false).1 = Except.error TransferError.notEnoughBalance)
      ∧ (sendTonTransfer sampleEnvSync sampleWalletState sampleRecipient 5 true
          sampleFee []).1 = Except.ok ()
      ∧ (sampleEnvSync.wallet.balance ≤ 5 + (-sampleFee.extra) →
          (sendTonTransfer sampleEnvSync sampleWalletState sampleRecipient 5 false
            sampleFee []).1 = Except.error TransferError.notEnoughBalance)) :=
  ⟨rfl,
    C4_send_max_mode_and_checks sampleEnvSync sampleWalletState sampleRecipient 5
      sampleFee [] 60 7 SecretKey.zeros rfl⟩

/-- A second concrete multi-transfer message, differing from the first in its
amount, for the C8 counterexample. -/
def sampleTransferMessage2 : TransferMessage :=
  { «to» := TonAddress.friendly true "EQAA", bounce := true, weiAmount := 2,
    comment := none }

/-- A settings entry of a backward-compatibility-only version with zero
balance and no jettons, for the C6 witness. -/
def sampleHiddenVersion : StandardTonWalletVersion :=
  { version := WalletVersion.V3R1, tonBalance := 0, hasJettons := false }

/-- C3: with the clock in sync and the balance gates passing (they run before
the count gate), both multi-transfer operations fail with the message-count
condition exactly when the batch size strictly exceeds the wallet version's
MAX_ALLOWED_WALLET_MSGS ceiling, and a batch at or below the ceiling passes
the gate and proceeds. -/
theorem C3_multi_message_count_gate (env : Env) (walletState : WalletState)
    (transferMessages : List TransferMessage) (feeEstimate : Int)
    (mnemonic : List String)
    (hsync : env.timeSynced = true)
    (hbal1 : transferMessages.foldl (fun acc msg => acc + msg.weiAmount) 0
      < env.wallet.balance)
    (hbal2 : transferMessages.foldl (fun acc msg => acc + msg.weiAmount) 0 + feeEstimate
      < env.wallet.balance) :
    ((estimateTonMultiTransfer env walletState transferMessages).1
        = Except.error TransferError.tooManyMessages
      ↔ MAX_ALLOWED_WALLET_MSGS walletState.version < transferMessages.length)
    ∧ ((sendTonMultiTransfer env walletState transferMessages feeEstimate mnemonic).1
        = Except.error TransferError.tooManyMessages
      ↔ MAX_ALLOWED_WALLET_MSGS walletState.version < transferMessages.length)
    ∧ (transferMessages.length ≤ MAX_ALLOWED_WALLET_MSGS walletState.version →
        (estimateTonMultiTransfer env walletState transferMessages).1
            = Except.ok env.emulation
        ∧ (sendTonMultiTransfer env walletState transferMessages feeEstimate
            mnemonic).1 = Except.ok true) := by
  have hc1 : checkWalletBalance
      (transferMessages.foldl (fun acc msg => acc + msg.weiAmount) 0) env.wallet
      = true := by
    unfold checkWalletBalance
    simp only [decide_eq_true_eq]
    omega
  have hc2 : checkWalletBalance
      (transferMessages.foldl (fun acc msg => acc + msg.weiAmount) 0 + feeEstimate)
      env.wallet = true := by
    unfold checkWalletBalance
    simp only [decide_eq_true_eq]
    omega
  by_cases hm : transferMessages.length ≤ MAX_ALLOWED_WALLET_MSGS walletState.version
  · have hcm : checkMaxAllowedMessagesInMultiTransfer transferMessages.length
        walletState.version = true := by
      unfold checkMaxAllowedMessagesInMultiTransfer
      simp only [decide_eq_true_eq]
      omega
    refine ⟨?_, ?_, fun _ => ⟨?_, ?_⟩⟩
    · simp [estimateTonMultiTransfer, hsync, hc1, hcm]
      omega
    · simp [sendTonMultiTransfer, hsync, hc2, hcm]
      omega
    · simp [estimateTonMultiTransfer, hsync, hc1, hcm]
    · simp [sendTonMultiTransfer, hsync, hc2, hcm]
  · have hcm : checkMaxAllowedMessagesInMultiTransfer transferMessages.length
        walletState.version = false := by
      unfold checkMaxAllowedMessagesInMultiTransfer
      simp only [decide_eq_false_iff_not]
      omega
    refine ⟨?_, ?_, fun hlen => absurd hlen hm⟩
    · simp [estimateTonMultiTransfer, hsync, hc1, hcm]
      omega
    · simp [sendTonMultiTransfer, hsync, hc2, hcm]
      omega

/-- C3 witness: on a V4R2 wallet (ceiling 4) a one-message batch passes the
gate; the iffs hold at this concrete input. -/
theorem C3_multi_message_count_gate_witness :
    sampleEnvSync.timeSynced = true
    ∧ ([sampleTransferMessage].foldl (fun acc msg => acc + msg.weiAmount) 0
        < sampleEnvSync.wallet.balance)
    ∧ ([sampleTransferMessage].foldl (fun acc msg => acc + msg.weiAmount) 0 + 1
        < sampleEnvSync.wallet.balance)
    ∧ (((estimateTonMultiTransfer sampleEnvSync sampleWalletState
          [sampleTransferMessage]).1 = Except.error TransferError.tooManyMessages
        ↔ MAX_ALLOWED_WALLET_MSGS sampleWalletState.version
            < [sampleTransferMessage].length)
      ∧ ((sendTonMultiTransfer sampleEnvSync sampleWalletState
            [sampleTransferMessage] 1 []).1
            = Except.error TransferError.tooManyMessages
        ↔ MAX_ALLOWED_WALLET_MSGS sampleWalletState.version
            < [sampleTransferMessage].length)
      ∧ ([sampleTransferMessage].length
            ≤ MAX_ALLOWED_WALLET_MSGS sampleWalletState.version →
          (estimateTonMultiTransfer sampleEnvSync sampleWalletState
              [sampleTransferMessage]).1 = Except.ok sampleEnvSync.emulation
          ∧ (sendTonMultiTransfer sampleEnvSync sampleWalletState
              [sampleTransferMessage] 1 []).1 = Except.ok true)) :=
  ⟨rfl, by decide, by decide,
    C3_multi_message_count_gate sampleEnvSync sampleWalletState
      [sampleTransferMessage] 1 [] rfl (by decide) (by decide)⟩

/-- C6: an entry of the fetched wallet-version list is kept by the Version.tsx
filter iff its version is not backward-compatibility-only, or a wallet of that
version is already attached to the account, or its TON balance is non-zero, or
it holds jettons; so an entry failing all four conditions is excluded and each
condition alone makes it visible. -/
theorem C6_wallet_version_filter (backCompat : List WalletVersion)
    (currentAccountWalletsVersions : List AccountTonWallet)
    (wallets : List StandardTonWalletVersion) (w : StandardTonWalletVersion)
    (hw : w ∈ wallets) :
    w ∈ walletsToShow backCompat currentAccountWalletsVersions wallets
      ↔ (w.version ∉ backCompat
          ∨ (∃ item ∈ currentAccountWalletsVersions, item.version = w.version)
          ∨ w.tonBalance ≠ 0
          ∨ w.hasJettons = true) := by
  unfold walletsToShow
  simp [List.mem_filter, hw, List.any_eq_true, or_assoc]

/-- C6 witness: a backward-compatibility-only version with zero balance, no
jettons and not attached is excluded (both sides of the iff are false at this
concrete input). -/
theorem C6_wallet_version_filter_witness :
    sampleHiddenVersion ∈ [sampleHiddenVersion]
    ∧ (sampleHiddenVersion
          ∈ walletsToShow [WalletVersion.V3R1] [] [sampleHiddenVersion]
        ↔ (sampleHiddenVersion.version ∉ [WalletVersion.V3R1]
            ∨ (∃ item ∈ ([] : List AccountTonWallet),
                item.version = sampleHiddenVersion.version)
            ∨ sampleHiddenVersion.tonBalance ≠ 0
            ∨ sampleHiddenVersion.hasJettons = true)) :=
  ⟨List.mem_singleton.mpr rfl,
    C6_wallet_version_filter [WalletVersion.V3R1] [] [sampleHiddenVersion]
      sampleHiddenVersion (List.mem_singleton.mpr rfl)⟩

/-- C8 (counterexample): two successful multi-transfer submissions that
broadcast different envelopes both return the literal true, so the value
sendTonMultiTransfer hands back is not the base64-encoded envelope it
broadcast (and sendTonTransfer returns no value at all). -/
theorem C8_counterexample :
    (sendTonMultiTransfer sampleEnvSync sampleWalletState
        [sampleTransferMessage] 0 []).1 = Except.ok true
    ∧ (sendTonMultiTransfer sampleEnvSync sampleWalletState
        [sampleTransferMessage2] 0 []).1 = Except.ok true
    ∧ (sendTonMultiTransfer sampleEnvSync sampleWalletState
        [sampleTransferMessage] 0 []).2
      ≠ (sendTonMultiTransfer sampleEnvSync sampleWalletState
        [sampleTransferMessage2] 0 []).2 := by
  refine ⟨rfl, rfl, by decide⟩

/-- C8 (amended): with the clock in sync and the gates passing, every
submission operation broadcasts the base64-encoded envelope it constructed;
sendTonConnectTransfer returns that envelope to the caller, while
sendTonTransfer returns no value and sendTonMultiTransfer returns the literal
true. -/
theorem C8_submission_returns (env : Env) (walletState : WalletState)
    (accounts : AccountsMap) (params : TonConnectTransactionPayload)
    (recipient : TonRecipientData) (amountWei : Int)
    (fee : TransferEstimationEvent) (transferMessages : List TransferMessage)
    (feeEstimate : Int) (mnemonic : List String)
    (hsync : env.timeSynced = true)
    (hbal : amountWei + (-fee.extra) < env.wallet.balance)
    (hbal2 : transferMessages.foldl (fun acc msg => acc + msg.weiAmount) 0 + feeEstimate
      < env.wallet.balance)
    (hcount : transferMessages.length ≤ MAX_ALLOWED_WALLET_MSGS walletState.version) :
    sendTonConnectTransfer env walletState accounts params mnemonic
      = (Except.ok (createTonConnectTransfer env.ttl env.seqno walletState accounts
            params (mnemonicToPrivateKey mnemonic)).toBase64,
          [ApiCall.getServiceTime, ApiCall.getSeqno,
            ApiCall.sendMessage (createTonConnectTransfer env.ttl env.seqno
              walletState accounts params (mnemonicToPrivateKey mnemonic)).toBase64])
    ∧ sendTonTransfer env walletState recipient amountWei false fee mnemonic
      = (Except.ok (),
          [ApiCall.getServiceTime, ApiCall.getBalance,
            ApiCall.sendMessage (createTonTransfer env.ttl env.seqno walletState
              recipient amountWei false (mnemonicToPrivateKey mnemonic)).toBase64])
    ∧ sendTonMultiTransfer env walletState transferMessages feeEstimate mnemonic
      = (Except.ok true,
          [ApiCall.getServiceTime, ApiCall.getBalance,
            ApiCall.sendMessage (createTonMultiTransfer env.ttl env.seqno walletState
              transferMessages (mnemonicToPrivateKey mnemonic)).toBase64]) := by
  have hc : checkWalletBalance (-fee.extra + amountWei) env.wallet = true := by
    unfold checkWalletBalance
    simp only [decide_eq_true_eq]
    omega
  have hc2 : checkWalletBalance
      (transferMessages.foldl (fun acc msg => acc + msg.weiAmount) 0 + feeEstimate)
      env.wallet = true := by
    unfold checkWalletBalance
    simp only [decide_eq_true_eq]
    omega
  have hcm : checkMaxAllowedMessagesInMultiTransfer transferMessages.length
      walletState.version = true := by
    unfold checkMaxAllowedMessagesInMultiTransfer
    simp only [decide_eq_true_eq]
    omega
  refine ⟨?_, ?_, ?_⟩
  · simp [sendTonConnectTransfer, hsync]
  · simp [sendTonTransfer, hsync, hc]
  · simp [sendTonMultiTransfer, hsync, hc2, hcm]

/-- C8 (amended) witness: the three submission operations at concrete inputs
with all gates passing. -/
theorem C8_submission_returns_witness :
    sampleEnvSync.timeSynced = true
    ∧ (sendTonConnectTransfer sampleEnvSync sampleWalletState [] samplePayload []
        = (Except.ok (createTonConnectTransfer sampleEnvSync.ttl sampleEnvSync.seqno
              sampleWalletState [] samplePayload (mnemonicToPrivateKey [])).toBase64,
            [ApiCall.getServiceTime, ApiCall.getSeqno,
              ApiCall.sendMessage (createTonConnectTransfer sampleEnvSync.ttl
                sampleEnvSync.seqno sampleWalletState [] samplePayload
                (mnemonicToPrivateKey [])).toBase64])
      ∧ sendTonTransfer sampleEnvSync sampleWalletState sampleRecipient 5 false
          sampleFee []
        = (Except.ok (),
            [ApiCall.getServiceTime, ApiCall.getBalance,
              ApiCall.sendMessage (createTonTransfer sampleEnvSync.ttl
                sampleEnvSync.seqno sampleWalletState sampleRecipient 5 false
                (mnemonicToPrivateKey [])).toBase64])
      ∧ sendTonMultiTransfer sampleEnvSync sampleWalletState [sampleTransferMessage]
          1 []
        = (Except.ok true,
            [ApiCall.getServiceTime, ApiCall.getBalance,
              ApiCall.sendMessage (createTonMultiTransfer sampleEnvSync.ttl
                sampleEnvSync.seqno sampleWalletState [sampleTransferMessage]
                (mnemonicToPrivateKey [])).toBase64])) :=
  ⟨rfl,
    C8_submission_returns sampleEnvSync sampleWalletState [] samplePayload
      sampleRecipient 5 sampleFee [sampleTransferMessage] 1 [] rfl (by decide)
      (by decide) (by decide)⟩

end MegapayerTon
